import Mathlib

/-!
Shallow embedding of the grounded-generation client of this repository.

The primary implementation is the serverless handler in `api/generate.js`
(`module.exports`): input validation, payload construction, a retry loop with
exponential backoff around an HTTP POST, and extraction of generated text and
grounding sources from a 2xx envelope.  The client-side variant in
`src/App.jsx` contributes `parseApiResponse` and the `data.error` check of
`handleSearch`.

JavaScript values that may be `undefined`/`null` are modelled as `Option`;
JavaScript string truthiness (`undefined`, `null` and `""` are falsy) is the
predicate `jsTruthy`.  The nondeterministic parts of one run — the outcome of
each fetch attempt and the value of `Math.random()` at each attempt — are
passed in as functions of the attempt index.  Waiting is recorded, not
performed: a run returns the list of delays that `setTimeout` would have
slept, together with the number of fetch attempts made.
-/

namespace Mycox

/-- JS string truthiness: `undefined`/`null`/`""` are falsy. -/
def jsTruthy : Option String → Bool
  | some s => s ≠ ""
  | none => false

/-- `attribution.web` object: `{ uri?, title? }`. -/
structure Web where
  uri : Option String
  title : Option String
  deriving Repr, DecidableEq

/-- One entry of `groundingMetadata.groundingAttributions`. -/
structure Attribution where
  web : Option Web
  deriving Repr, DecidableEq

/-- `candidate.groundingMetadata`. -/
structure GroundingMetadata where
  groundingAttributions : Option (List Attribution)
  deriving Repr, DecidableEq

/-- One element of `content.parts`. -/
structure ContentPart where
  text : Option String
  deriving Repr, DecidableEq

/-- `candidate.content`. -/
structure Content where
  parts : Option (List ContentPart)
  deriving Repr, DecidableEq

/-- One element of `result.candidates`. -/
structure Candidate where
  content : Option Content
  groundingMetadata : Option GroundingMetadata
  deriving Repr, DecidableEq

/-- Application-level error object that some upstream bodies embed:
`data.error` with an optional `message`. -/
structure ApiError where
  message : Option String
  deriving Repr, DecidableEq

/-- The JSON body of an upstream response, with every field the code touches
kept optional. -/
structure ApiResponse where
  candidates : Option (List Candidate)
  error : Option ApiError
  deriving Repr, DecidableEq

/-- A source entry as built by the code: `{ uri: attribution.web?.uri,
title: attribution.web?.title }` — either field may be `undefined`. -/
structure SourceEntry where
  uri : Option String
  title : Option String
  deriving Repr, DecidableEq

/-- `{ uri: attribution.web?.uri, title: attribution.web?.title }`. -/
def attributionEntry (a : Attribution) : SourceEntry :=
  { uri := a.web.bind Web.uri, title := a.web.bind Web.title }

/-- `result.candidates?.[0]`. -/
def firstCandidate (r : ApiResponse) : Option Candidate :=
  r.candidates.bind List.head?

/-- `candidate.content?.parts?.[0]?.text`. -/
def candidateText (c : Candidate) : Option String :=
  (c.content.bind (fun ct => ct.parts.bind List.head?)).bind ContentPart.text

/-- Grounding-source extraction (lines 77–86 of `api/generate.js`, identical
in `parseApiResponse` of `src/App.jsx`): if grounding metadata with an
attributions list is present, map each attribution to `{uri, title}` and keep
only entries where both fields are truthy. -/
def extractSources (c : Candidate) : List SourceEntry :=
  match c.groundingMetadata with
  | some gm =>
      match gm.groundingAttributions with
      | some attrs =>
          (attrs.map attributionEntry).filter
            (fun s => jsTruthy s.uri && jsTruthy s.title)
      | none => []
  | none => []

/-- Result of `parseApiResponse` in `src/App.jsx`: `{ generatedText, sources }`. -/
structure ParseResult where
  generatedText : String
  sources : List SourceEntry
  deriving Repr, DecidableEq

/-- `parseApiResponse` from `src/App.jsx` (lines 13–32): guarded extraction of
the first candidate's first text part and of the grounding sources; every
access is through `Option`, so the function is total by construction. -/
def parseApiResponse (data : ApiResponse) : ParseResult :=
  let candidate := firstCandidate data
  let generatedText :=
    match candidate with
    | some c =>
        match candidateText c with
        | some t => if t = "" then "" else t
        | none => ""
    | none => ""
  let sources :=
    match candidate with
    | some c => extractSources c
    | none => []
  { generatedText := generatedText, sources := sources }

/-- The `data.error` check of `handleSearch` in `src/App.jsx` (lines 106–116):
a 200 body that embeds an application-level `error` field throws (with
`error.message` or a default) before `parseApiResponse` is called. -/
def handleSearchBody (data : ApiResponse) : Except String ParseResult :=
  match data.error with
  | some e =>
      Except.error
        (match e.message with
         | some m => if m = "" then "An unknown API error occurred." else m
         | none => "An unknown API error occurred.")
  | none => Except.ok (parseApiResponse data)

/-! ## The serverless handler (`api/generate.js`) -/

/-- `MAX_RETRIES` constant of `api/generate.js`. -/
def MAX_RETRIES : Nat := 5

/-- Request body fields the handler destructures:
`{ userPrompt, systemPrompt, useSearch }`. -/
structure ReqBody where
  userPrompt : Option String
  systemPrompt : Option String
  useSearch : Bool
  deriving Repr, DecidableEq

/-- `{ parts: [{ text }] }` wrapper used in the outbound payload. -/
structure PartsWrapper where
  parts : List ContentPart
  deriving Repr, DecidableEq

/-- The outbound payload: `contents`, optional `systemInstruction`, optional
`tools` (the only tool ever attached is the `google_search` marker, recorded
here as the number of tool markers in the list). -/
structure Payload where
  contents : List PartsWrapper
  systemInstruction : Option PartsWrapper
  tools : Option (List Unit)
  deriving Repr, DecidableEq

/-- Payload construction (lines 36–51 of `api/generate.js`): `contents` is a
single-element list holding the user prompt; `systemInstruction` is attached
only when `systemPrompt` is truthy; `tools` (one `google_search` marker) only
when `useSearch` is truthy. -/
def buildPayload (userPrompt : String) (systemPrompt : Option String)
    (useSearch : Bool) : Payload :=
  { contents := [{ parts := [{ text := some userPrompt }] }]
    systemInstruction :=
      if jsTruthy systemPrompt then
        some { parts := [{ text := some (systemPrompt.getD "") }] }
      else none
    tools := if useSearch then some [()] else none }

/-- Outcome of one `fetch` attempt: a reply with a status and a JSON body, or
a transport-level failure that `fetch` throws. -/
inductive FetchOutcome where
  | reply (status : Nat) (body : ApiResponse)
  | netFail (msg : String)
  deriving Repr, DecidableEq

/-- `Response.ok`: status in `[200, 300)`. -/
def respOk (status : Nat) : Bool :=
  200 ≤ status && status < 300

/-- Retryable per line 96 of `api/generate.js`: status 429 or ≥ 500. -/
def retryableStatus (status : Nat) : Bool :=
  status == 429 || 500 ≤ status

/-- The body of the handler's own HTTP response, one constructor per
`return res...` site of `api/generate.js`. -/
inductive ResBody where
  /-- `res.status(405).end('Method Not Allowed')`. -/
  | methodNotAllowed
  /-- `res.status(...).json({ error })`. -/
  | errMsg (error : String)
  /-- `res.status(...).json({ error, details })` where `details` is a string
  (the message of a thrown fetch error). -/
  | errCause (error : String) (details : String)
  /-- `res.status(...).json({ error, details })` where `details` is the parsed
  upstream error body. -/
  | errDetails (error : String) (details : ApiResponse)
  /-- `res.status(500).json({ error, result })` for an empty/malformed 2xx
  envelope. -/
  | errResult (error : String) (result : ApiResponse)
  /-- `res.status(200).json({ text, sources })`. -/
  | success (text : String) (sources : List SourceEntry)
  deriving Repr, DecidableEq

/-- The handler's HTTP response: status, the `Allow` header if set, body. -/
structure HttpResponse where
  status : Nat
  allowHeader : Option String
  body : ResBody
  deriving Repr, DecidableEq

/-- One run of the handler: its HTTP response, the list of delays (ms) the
run waited between attempts, and the number of fetch attempts performed. -/
structure RunResult where
  resp : HttpResponse
  waits : List ℚ
  attempts : Nat
  deriving Repr, DecidableEq

/-- `Math.pow(2, attempt) * 1000 + Math.random() * 1000`, where `rand i` is
the value `Math.random()` returned at attempt `i`. -/
def backoffDelay (rand : Nat → ℚ) (attempt : Nat) : ℚ :=
  2 ^ attempt * 1000 + rand attempt * 1000

/-- The 2xx branch of the retry loop (lines 65–92 of `api/generate.js`):
reject an envelope with no candidate or no truthy first text part, otherwise
return the text and extracted sources. -/
def processOk (result : ApiResponse) : HttpResponse :=
  match firstCandidate result with
  | none =>
      { status := 500, allowHeader := none
        body := ResBody.errResult "Generated content was empty or malformed." result }
  | some c =>
      match candidateText c with
      | none =>
          { status := 500, allowHeader := none
            body := ResBody.errResult "Generated content was empty or malformed." result }
      | some t =>
          if t = "" then
            { status := 500, allowHeader := none
              body := ResBody.errResult "Generated content was empty or malformed." result }
          else
            { status := 200, allowHeader := none
              body := ResBody.success t (extractSources c) }

/-- The retry loop of `api/generate.js` (lines 56–126).  `attempt` is the
loop index; `fuel` is the number of loop iterations remaining
(`MAX_RETRIES - attempt` at the top level), so the recursion is structural.
When `fuel` reaches 0 the loop exits and the handler returns the
line-126 fallthrough. -/
def retryLoop (outcomes : Nat → FetchOutcome) (rand : Nat → ℚ) :
    Nat → Nat → RunResult
  | _, 0 =>
      { resp := { status := 500, allowHeader := none
                  body := ResBody.errMsg "All API attempts failed." }
        waits := [], attempts := 0 }
  | attempt, fuel + 1 =>
      match outcomes attempt with
      | FetchOutcome.reply st body =>
          if respOk st then
            { resp := processOk body, waits := [], attempts := 1 }
          else if retryableStatus st then
            if attempt < MAX_RETRIES - 1 then
              let r := retryLoop outcomes rand (attempt + 1) fuel
              { resp := r.resp, waits := backoffDelay rand attempt :: r.waits
                attempts := r.attempts + 1 }
            else
              let r := retryLoop outcomes rand (attempt + 1) fuel
              { resp := r.resp, waits := r.waits, attempts := r.attempts + 1 }
          else
            { resp := { status := st, allowHeader := none
                        body := ResBody.errDetails
                          ("API call failed with status " ++ toString st) body }
              waits := [], attempts := 1 }
      | FetchOutcome.netFail msg =>
          if attempt < MAX_RETRIES - 1 then
            let r := retryLoop outcomes rand (attempt + 1) fuel
            { resp := r.resp, waits := backoffDelay rand attempt :: r.waits
              attempts := r.attempts + 1 }
          else
            { resp := { status := 500, allowHeader := none
                        body := ResBody.errCause
                          "Failed to connect to the Gemini API after multiple retries." msg }
              waits := [], attempts := 1 }

/-- The serverless handler `module.exports` of `api/generate.js`: method
check, API-key check, input validation, then the retry loop. -/
def handler (method : String) (apiKey : Option String) (body : ReqBody)
    (outcomes : Nat → FetchOutcome) (rand : Nat → ℚ) : RunResult :=
  if method ≠ "POST" then
    { resp := { status := 405, allowHeader := some "POST"
                body := ResBody.methodNotAllowed }
      waits := [], attempts := 0 }
  else if ¬ jsTruthy apiKey then
    { resp := { status := 500, allowHeader := none
                body := ResBody.errMsg "Server configuration error: Gemini API key missing." }
      waits := [], attempts := 0 }
  else if ¬ jsTruthy body.userPrompt then
    { resp := { status := 400, allowHeader := none
                body := ResBody.errMsg "Missing userPrompt in request body." }
      waits := [], attempts := 0 }
  else
    retryLoop outcomes rand 0 MAX_RETRIES

/-- A 2xx envelope with no first candidate or no truthy first text part
(line 69 of `api/generate.js`: `!candidate || !candidate.content?.parts?.[0]?.text`). -/
def emptyEnvelope (r : ApiResponse) : Bool :=
  match firstCandidate r with
  | none => true
  | some c => ! jsTruthy (candidateText c)

/-- The filter the source extraction applies, pulled back through the map:
an attribution survives iff its mapped `{uri, title}` entry has both fields
truthy. -/
def validAttribution (a : Attribution) : Bool :=
  jsTruthy (attributionEntry a).uri && jsTruthy (attributionEntry a).title

/-! ## Helper lemmas -/

theorem respOk_false_of_retryable (st : Nat) (h : retryableStatus st = true) :
    respOk st = false := by
  simp only [retryableStatus, Bool.or_eq_true, beq_iff_eq, decide_eq_true_eq] at h
  simp only [respOk, Bool.and_eq_false_iff, decide_eq_false_iff_not]
  omega

theorem processOk_of_empty (r : ApiResponse) (h : emptyEnvelope r = true) :
    processOk r =
      { status := 500, allowHeader := none
        body := ResBody.errResult "Generated content was empty or malformed." r } := by
  unfold emptyEnvelope at h
  rcases hc : firstCandidate r with _ | c
  · simp [processOk, hc]
  · rw [hc] at h
    rcases ht : candidateText c with _ | t
    · simp [processOk, hc, ht]
    · simp [jsTruthy, ht] at h
      simp [processOk, hc, ht, h]

theorem processOk_success_text_ne (r : ApiResponse) (t : String)
    (s : List SourceEntry) (h : (processOk r).body = ResBody.success t s) :
    t ≠ "" := by
  rcases hc : firstCandidate r with _ | c
  · simp [processOk, hc] at h
  · rcases ht : candidateText c with _ | u
    · simp [processOk, hc, ht] at h
    · by_cases hu : u = ""
      · simp [processOk, hc, ht, hu] at h
      · simp [processOk, hc, ht, hu] at h
        obtain ⟨rfl, -⟩ := h
        exact hu

/-! ## Claim theorems -/

/-- Claim C1: at any attempt, a reply whose status is neither 2xx nor
retryable (not 429, not ≥ 500) makes the handler return immediately with
that status and the response body as details, performing zero retry waits
and no further attempts. -/
theorem nonretryable_stops_immediately (outcomes : Nat → FetchOutcome)
    (rand : Nat → ℚ) (i fuel st : Nat) (b : ApiResponse)
    (hok : respOk st = false) (hretry : retryableStatus st = false)
    (hout : outcomes i = FetchOutcome.reply st b) :
    retryLoop outcomes rand i (fuel + 1) =
      { resp := { status := st, allowHeader := none
                  body := ResBody.errDetails
                    ("API call failed with status " ++ toString st) b }
        waits := [], attempts := 1 } := by
  simp [retryLoop, hout, hok, hretry]

/-- Witness for C1 at the spec's example: a single 400 reply. -/
theorem nonretryable_stops_immediately_witness :
    retryLoop (fun _ => FetchOutcome.reply 400 { candidates := none, error := none })
        (fun _ => 0) 0 5 =
      { resp := { status := 400, allowHeader := none
                  body := ResBody.errDetails
                    ("API call failed with status " ++ toString 400)
                    { candidates := none, error := none } }
        waits := [], attempts := 1 } :=
  nonretryable_stops_immediately _ _ 0 4 400 _ rfl rfl rfl

/-- Claim C2: a 2xx reply whose envelope has no candidate or no truthy first
text part makes the run end with the empty-generation error carrying that
envelope, after that single attempt and with no waits; and a 2xx reply never
yields a success body with empty text. -/
theorem empty_envelope_fails (outcomes : Nat → FetchOutcome) (rand : Nat → ℚ)
    (i fuel st : Nat) (b : ApiResponse)
    (hok : respOk st = true) (hout : outcomes i = FetchOutcome.reply st b) :
    (emptyEnvelope b = true →
      retryLoop outcomes rand i (fuel + 1) =
        { resp := { status := 500, allowHeader := none
                    body := ResBody.errResult
                      "Generated content was empty or malformed." b }
          waits := [], attempts := 1 }) ∧
    (∀ t s, (retryLoop outcomes rand i (fuel + 1)).resp.body =
        ResBody.success t s → t ≠ "") := by
  have hrun : retryLoop outcomes rand i (fuel + 1) =
      { resp := processOk b, waits := [], attempts := 1 } := by
    simp [retryLoop, hout, hok]
  constructor
  · intro hemp
    rw [hrun, processOk_of_empty b hemp]
  · intro t s hs
    rw [hrun] at hs
    exact processOk_success_text_ne b t s hs

/-- Witness for C2 at the spec's example: a 200 reply whose body is
`{candidates: []}`. -/
theorem empty_envelope_fails_witness :
    retryLoop (fun _ => FetchOutcome.reply 200 { candidates := some [], error := none })
        (fun _ => 0) 0 5 =
      { resp := { status := 500, allowHeader := none
                  body := ResBody.errResult
                    "Generated content was empty or malformed."
                    { candidates := some [], error := none } }
        waits := [], attempts := 1 } :=
  (empty_envelope_fails (fun _ => FetchOutcome.reply 200
      { candidates := some [], error := none }) (fun _ => 0) 0 4 200 _
    rfl rfl).1 rfl

/-- Claim C3: in the client flow, a 200 body carrying an application-level
`error` field is rejected before any text extraction: `handleSearchBody`
never returns a parse result for it, and its outcome does not depend on the
`candidates` field at all. -/
theorem error_field_checked_first (data : ApiResponse) (e : ApiError)
    (h : data.error = some e) :
    (∀ r : ParseResult, handleSearchBody data ≠ Except.ok r) ∧
    (∀ cs : Option (List Candidate),
      handleSearchBody { data with candidates := cs } = handleSearchBody data) := by
  constructor
  · intro r hr
    simp [handleSearchBody, h] at hr
  · intro cs
    simp [handleSearchBody, h]

/-- Witness for C3: a 200 body `{error: {message: "quota"}}` with no
candidates is rejected, and adding a candidates list changes nothing. -/
theorem error_field_checked_first_witness :
    handleSearchBody { candidates := none, error := some { message := some "quota" } } ≠
      Except.ok { generatedText := "", sources := [] } ∧
    handleSearchBody { candidates := some [], error := some { message := some "quota" } } =
      handleSearchBody { candidates := none, error := some { message := some "quota" } } :=
  ⟨(error_field_checked_first
      { candidates := none, error := some { message := some "quota" } }
      { message := some "quota" } rfl).1 { generatedText := "", sources := [] },
   (error_field_checked_first
      { candidates := none, error := some { message := some "quota" } }
      { message := some "quota" } rfl).2 (some [])⟩

theorem filter_comm_map {α β : Type} (f : α → β) (p : β → Bool) :
    ∀ l : List α, (l.map f).filter p = (l.filter (fun a => p (f a))).map f := by
  intro l
  induction l with
  | nil => rfl
  | cons a l ih =>
      by_cases h : p (f a) <;> simp [List.filter_cons, h, ih]

/-- Claim C4: for a candidate whose grounding attributions list is `attrs`,
the extracted sources are exactly the entries of the surviving attributions
(those whose mapped `{uri, title}` entry has both fields present and
non-empty), mapped in the upstream order with duplicates kept; and every
surviving entry indeed carries a present, non-empty uri and title. -/
theorem sources_filter_preserves_order (c : Candidate) (gm : GroundingMetadata)
    (attrs : List Attribution) (hgm : c.groundingMetadata = some gm)
    (hattrs : gm.groundingAttributions = some attrs) :
    extractSources c = (attrs.filter validAttribution).map attributionEntry ∧
    ∀ s ∈ extractSources c,
      ∃ u t, s.uri = some u ∧ u ≠ "" ∧ s.title = some t ∧ t ≠ "" := by
  have hext : extractSources c =
      (attrs.map attributionEntry).filter
        (fun s => jsTruthy s.uri && jsTruthy s.title) := by
    simp [extractSources, hgm, hattrs]
  constructor
  · rw [hext, filter_comm_map]
    rfl
  · intro s hs
    rw [hext] at hs
    have hp := List.of_mem_filter hs
    simp only [Bool.and_eq_true] at hp
    obtain ⟨hu, ht⟩ := hp
    rcases hsu : s.uri with _ | u
    · rw [hsu] at hu; simp [jsTruthy] at hu
    · rcases hst : s.title with _ | t
      · rw [hst] at ht; simp [jsTruthy] at ht
      · rw [hsu] at hu
        rw [hst] at ht
        simp only [jsTruthy, decide_eq_true_eq] at hu ht
        exact ⟨u, t, rfl, hu, rfl, ht⟩

/-- Witness for C4 at the spec's example: attributions
`[{web:{uri:"a",title:""}}, {web:{uri:"b",title:"B"}}]` yield exactly the
second entry. -/
theorem sources_filter_preserves_order_witness :
    extractSources
        { content := none
          groundingMetadata := some
            { groundingAttributions := some
                [ { web := some { uri := some "a", title := some "" } },
                  { web := some { uri := some "b", title := some "B" } } ] } } =
      [{ uri := some "b", title := some "B" }] := by
  have h := (sources_filter_preserves_order
    { content := none
      groundingMetadata := some
        { groundingAttributions := some
            [ { web := some { uri := some "a", title := some "" } },
              { web := some { uri := some "b", title := some "B" } } ] } }
    _ _ rfl rfl).1
  rw [h]
  rfl

/-! ## Retry-loop invariants -/

theorem retryLoop_attempts_le (outcomes : Nat → FetchOutcome) (rand : Nat → ℚ) :
    ∀ fuel attempt, (retryLoop outcomes rand attempt fuel).attempts ≤ fuel := by
  intro fuel
  induction fuel with
  | zero => intro attempt; simp [retryLoop]
  | succ n ih =>
      intro attempt
      unfold retryLoop
      cases outcomes attempt with
      | reply st b =>
          by_cases h1 : respOk st
          · simp [h1]
          · by_cases h2 : retryableStatus st
            · by_cases h3 : attempt < MAX_RETRIES - 1 <;>
                simp [h1, h2, h3, Nat.succ_le_succ (ih (attempt + 1))]
            · simp [h1, h2]
      | netFail msg =>
          by_cases h3 : attempt < MAX_RETRIES - 1 <;>
            simp [h3, Nat.succ_le_succ (ih (attempt + 1))]

theorem retryLoop_frame (outcomes outcomes' : Nat → FetchOutcome)
    (rand : Nat → ℚ) :
    ∀ fuel attempt,
      (∀ j, attempt ≤ j → j < attempt + fuel → outcomes j = outcomes' j) →
      retryLoop outcomes rand attempt fuel =
        retryLoop outcomes' rand attempt fuel := by
  intro fuel
  induction fuel with
  | zero => intro attempt h; rfl
  | succ n ih =>
      intro attempt h
      have hrec := ih (attempt + 1)
        (fun j hj1 hj2 => h j (by omega) (by omega))
      have hcur : outcomes attempt = outcomes' attempt :=
        h attempt le_rfl (by omega)
      unfold retryLoop
      rw [← hcur, hrec]

theorem retryLoop_exhausts (outcomes : Nat → FetchOutcome) (rand : Nat → ℚ) :
    ∀ fuel attempt,
      (∀ i, attempt ≤ i → i < attempt + fuel →
        ∃ st b, outcomes i = FetchOutcome.reply st b ∧ retryableStatus st = true) →
      (retryLoop outcomes rand attempt fuel).resp =
        { status := 500, allowHeader := none
          body := ResBody.errMsg "All API attempts failed." } ∧
      (retryLoop outcomes rand attempt fuel).attempts = fuel := by
  intro fuel
  induction fuel with
  | zero => intro attempt h; exact ⟨rfl, rfl⟩
  | succ n ih =>
      intro attempt h
      obtain ⟨st, b, hout, hret⟩ := h attempt le_rfl (by omega)
      have hok := respOk_false_of_retryable st hret
      have hrec := ih (attempt + 1) (fun i h1 h2 => h i (by omega) (by omega))
      by_cases hlt : attempt < MAX_RETRIES - 1 <;>
        simp [retryLoop, hout, hok, hret, hlt, hrec.1, hrec.2]

/-- Claim C5: starting the loop at attempt 0 with the source's
`MAX_RETRIES`, (a) at most 5 fetch attempts are performed; (b) the run is
determined by the outcomes of attempts 0..4 only, so the attempt index never
exceeds 4; (c) if all five attempts receive a retryable status (429 or
≥ 500) the run ends with the retries-exhausted error after exactly 5
attempts and no success. -/
theorem retry_bounded_and_exhausts (outcomes outcomes' : Nat → FetchOutcome)
    (rand : Nat → ℚ) :
    (retryLoop outcomes rand 0 MAX_RETRIES).attempts ≤ 5 ∧
    ((∀ j < 5, outcomes j = outcomes' j) →
      retryLoop outcomes rand 0 MAX_RETRIES =
        retryLoop outcomes' rand 0 MAX_RETRIES) ∧
    ((∀ i < 5, ∃ st b, outcomes i = FetchOutcome.reply st b ∧
        retryableStatus st = true) →
      (retryLoop outcomes rand 0 MAX_RETRIES).resp =
        { status := 500, allowHeader := none
          body := ResBody.errMsg "All API attempts failed." } ∧
      (retryLoop outcomes rand 0 MAX_RETRIES).attempts = 5) := by
  have hM : MAX_RETRIES = 5 := rfl
  refine ⟨hM ▸ retryLoop_attempts_le outcomes rand MAX_RETRIES 0, ?_, ?_⟩
  · intro h
    exact retryLoop_frame outcomes outcomes' rand MAX_RETRIES 0
      (fun j hj1 hj2 => h j (by rw [hM] at hj2; omega))
  · intro h
    refine (retryLoop_exhausts outcomes rand MAX_RETRIES 0
      (fun i h1 h2 => h i (by rw [hM] at h2; omega))).imp id ?_
    intro ha
    rw [ha, hM]

/-- Witness for C5 at the spec's example: five straight 500 replies. -/
theorem retry_bounded_and_exhausts_witness :
    (retryLoop (fun _ => FetchOutcome.reply 500 { candidates := none, error := none })
        (fun _ => 0) 0 MAX_RETRIES).resp =
      { status := 500, allowHeader := none
        body := ResBody.errMsg "All API attempts failed." } ∧
    (retryLoop (fun _ => FetchOutcome.reply 500 { candidates := none, error := none })
        (fun _ => 0) 0 MAX_RETRIES).attempts = 5 :=
  (retry_bounded_and_exhausts
      (fun _ => FetchOutcome.reply 500 { candidates := none, error := none })
      (fun _ => FetchOutcome.reply 500 { candidates := none, error := none })
      (fun _ => 0)).2.2
    (fun _ _ => ⟨500, { candidates := none, error := none }, rfl, rfl⟩)

/-- Claim C6: when attempt `i ≤ 3` receives a retryable status, the run waits
`backoffDelay rand i = 2^i * 1000 + rand i * 1000` milliseconds before the
next attempt; with `0 ≤ rand i < 1` (the range of `Math.random()`) the wait
lies in `[2^i * 1000, 2^i * 1000 + 1000)`, and the jitter-free base doubles
each attempt starting at 1000 ms. -/
theorem backoff_wait_formula (outcomes : Nat → FetchOutcome) (rand : Nat → ℚ)
    (i fuel st : Nat) (b : ApiResponse)
    (hout : outcomes i = FetchOutcome.reply st b)
    (hret : retryableStatus st = true) (hi : i ≤ 3)
    (h0 : 0 ≤ rand i) (h1 : rand i < 1) :
    (retryLoop outcomes rand i (fuel + 1)).waits =
      backoffDelay rand i :: (retryLoop outcomes rand (i + 1) fuel).waits ∧
    backoffDelay rand i = 2 ^ i * 1000 + rand i * 1000 ∧
    2 ^ i * 1000 ≤ backoffDelay rand i ∧
    backoffDelay rand i < 2 ^ i * 1000 + 1000 ∧
    (∀ j : Nat, backoffDelay (fun _ => 0) (j + 1) = 2 * backoffDelay (fun _ => 0) j) ∧
    backoffDelay (fun _ => 0) 0 = 1000 := by
  have hok := respOk_false_of_retryable st hret
  have hlt : i < MAX_RETRIES - 1 := by
    simp only [MAX_RETRIES]
    omega
  refine ⟨by simp [retryLoop, hout, hok, hret, hlt], rfl, ?_, ?_, ?_, by norm_num [backoffDelay]⟩
  · unfold backoffDelay
    nlinarith
  · unfold backoffDelay
    nlinarith
  · intro j
    unfold backoffDelay
    ring

/-- Witness for C6: attempt 0 receives a 429 with `Math.random()` giving
`1/2`, so the recorded wait is 1500 ms. -/
theorem backoff_wait_formula_witness :
    (retryLoop (fun _ => FetchOutcome.reply 429 { candidates := none, error := none })
        (fun _ => (1 : ℚ) / 2) 0 4).waits =
      backoffDelay (fun _ => (1 : ℚ) / 2) 0 ::
        (retryLoop (fun _ => FetchOutcome.reply 429 { candidates := none, error := none })
          (fun _ => (1 : ℚ) / 2) 1 3).waits ∧
    backoffDelay (fun _ => (1 : ℚ) / 2) 0 = 2 ^ 0 * 1000 + (1 : ℚ) / 2 * 1000 :=
  ⟨(backoff_wait_formula
      (fun _ => FetchOutcome.reply 429 { candidates := none, error := none })
      (fun _ => (1 : ℚ) / 2) 0 3 429 { candidates := none, error := none }
      rfl rfl (by norm_num) (by norm_num) (by norm_num)).1,
   (backoff_wait_formula
      (fun _ => FetchOutcome.reply 429 { candidates := none, error := none })
      (fun _ => (1 : ℚ) / 2) 0 3 429 { candidates := none, error := none }
      rfl rfl (by norm_num) (by norm_num) (by norm_num)).2.1⟩

/-- Claim C7: with the method and API key in order, a falsy (missing or
empty) `userPrompt` makes the handler return the 400 invalid-request error
immediately: zero fetch attempts, zero waits. -/
theorem missing_prompt_rejected (apiKey : Option String) (body : ReqBody)
    (outcomes : Nat → FetchOutcome) (rand : Nat → ℚ)
    (hkey : jsTruthy apiKey = true) (hprompt : jsTruthy body.userPrompt = false) :
    handler "POST" apiKey body outcomes rand =
      { resp := { status := 400, allowHeader := none
                  body := ResBody.errMsg "Missing userPrompt in request body." }
        waits := [], attempts := 0 } := by
  simp [handler, hkey, hprompt]

/-- Witness for C7: a POST with a missing `userPrompt`. -/
theorem missing_prompt_rejected_witness :
    handler "POST" (some "key")
        { userPrompt := none, systemPrompt := none, useSearch := false }
        (fun _ => FetchOutcome.netFail "unreachable") (fun _ => 0) =
      { resp := { status := 400, allowHeader := none
                  body := ResBody.errMsg "Missing userPrompt in request body." }
        waits := [], attempts := 0 } :=
  missing_prompt_rejected (some "key")
    { userPrompt := none, systemPrompt := none, useSearch := false }
    (fun _ => FetchOutcome.netFail "unreachable") (fun _ => 0) rfl rfl

/-- Counterexample to C8 as stated: a systemPrompt equal to `""` is supplied,
yet the payload carries no `systemInstruction`, because the source guards
with JS truthiness (`if (systemPrompt)`), not presence. -/
theorem sysinstruction_dropped_for_empty_prompt :
    (some "" : Option String).isSome = true ∧
    (buildPayload "hi" (some "") false).systemInstruction = none :=
  ⟨rfl, rfl⟩

/-- Claim C8 (amended): `contents` is the single-element sequence holding the
user prompt as one part; `systemInstruction` is present iff a non-empty
`systemPrompt` was supplied, and then holds exactly the system text as one
part; `tools` is present iff search grounding was enabled, and then holds the
single grounding-tool marker. -/
theorem payload_shape (userPrompt : String) (systemPrompt : Option String)
    (useSearch : Bool) :
    (buildPayload userPrompt systemPrompt useSearch).contents =
      [{ parts := [{ text := some userPrompt }] }] ∧
    ((buildPayload userPrompt systemPrompt useSearch).systemInstruction.isSome ↔
      ∃ s, systemPrompt = some s ∧ s ≠ "") ∧
    (∀ s, systemPrompt = some s → s ≠ "" →
      (buildPayload userPrompt systemPrompt useSearch).systemInstruction =
        some { parts := [{ text := some s }] }) ∧
    ((buildPayload userPrompt systemPrompt useSearch).tools.isSome ↔
      useSearch = true) ∧
    (useSearch = true →
      (buildPayload userPrompt systemPrompt useSearch).tools = some [()]) := by
  refine ⟨rfl, ?_, ?_, ?_, ?_⟩
  · rcases systemPrompt with _ | s
    · simp [buildPayload, jsTruthy]
    · by_cases hs : s = "" <;> simp [buildPayload, jsTruthy, hs]
  · intro s hs hne
    subst hs
    simp [buildPayload, jsTruthy, hne]
  · cases useSearch <;> simp [buildPayload]
  · intro hu
    subst hu
    simp [buildPayload]

/-- Witness for C8 (amended) at a request with a non-empty system prompt and
grounding enabled. -/
theorem payload_shape_witness :
    (buildPayload "hi" (some "sys") true).contents =
      [{ parts := [{ text := some "hi" }] }] ∧
    (buildPayload "hi" (some "sys") true).systemInstruction =
      some { parts := [{ text := some "sys" }] } ∧
    (buildPayload "hi" (some "sys") true).tools = some [()] :=
  ⟨(payload_shape "hi" (some "sys") true).1,
   (payload_shape "hi" (some "sys") true).2.2.1 "sys" rfl (by decide),
   (payload_shape "hi" (some "sys") true).2.2.2.2 rfl⟩

/-- Claim C9: `parseApiResponse` is total — every response value, however
many fields are absent, yields a `{generatedText, sources}` pair — and when
no grounding metadata is reachable (no candidate, or the candidate carries
none) the sources are empty. -/
theorem parse_total_and_no_grounding_empty (data : ApiResponse) :
    (∃ t s, parseApiResponse data = { generatedText := t, sources := s }) ∧
    ((∀ c, firstCandidate data = some c → c.groundingMetadata = none) →
      (parseApiResponse data).sources = []) := by
  refine ⟨⟨(parseApiResponse data).generatedText,
    (parseApiResponse data).sources, rfl⟩, ?_⟩
  intro h
  rcases hc : firstCandidate data with _ | c
  · simp [parseApiResponse, hc]
  · simp [parseApiResponse, hc, extractSources, h c hc]

/-- Witness for C9: the all-absent response parses to empty sources. -/
theorem parse_total_and_no_grounding_empty_witness :
    (parseApiResponse { candidates := none, error := none }).sources = [] :=
  (parse_total_and_no_grounding_empty { candidates := none, error := none }).2
    (fun c hc => by simp [firstCandidate] at hc)

/-- Claim C10: a non-POST request is answered with 405 and an `Allow: POST`
header, with zero fetch attempts and zero waits, whatever the API key,
request body, and upstream behaviour. -/
theorem non_post_method_rejected (method : String) (apiKey : Option String)
    (body : ReqBody) (outcomes : Nat → FetchOutcome) (rand : Nat → ℚ)
    (h : method ≠ "POST") :
    handler method apiKey body outcomes rand =
      { resp := { status := 405, allowHeader := some "POST"
                  body := ResBody.methodNotAllowed }
        waits := [], attempts := 0 } := by
  simp [handler, h]

/-- Witness for C10: a GET request. -/
theorem non_post_method_rejected_witness :
    handler "GET" (some "key")
        { userPrompt := some "p", systemPrompt := none, useSearch := false }
        (fun _ => FetchOutcome.netFail "unreachable") (fun _ => 0) =
      { resp := { status := 405, allowHeader := some "POST"
                  body := ResBody.methodNotAllowed }
        waits := [], attempts := 0 } :=
  non_post_method_rejected "GET" (some "key")
    { userPrompt := some "p", systemPrompt := none, useSearch := false }
    (fun _ => FetchOutcome.netFail "unreachable") (fun _ => 0) (by decide)

end Mycox
